import Mathlib

/-!
Verification development for the devpi persistence core: a shallow embedding
of `keyfs_sqlite.py` (the SQLite KeyFS backend: kv / changelog / files tables,
the transaction `Writer`, and the two-pool read cache) and of `extpypi.py`
(the mirror cache: `IndexParser._mergelink_ifbetter`, `_load_cache_links`,
`_async_fetch_releaselinks` and `get_simplelinks_perstage`), together with
theorems checking the natural-language specification against the code.
-/

namespace Devpi

/-- Association-list lookup; models both a Python dict lookup and a SQL
`SELECT ... WHERE key = ?` against a primary-keyed table. -/
def alookup {κ ν : Type} [DecidableEq κ] : List (κ × ν) → κ → Option ν
  | [], _ => none
  | (k, v) :: rest, key => if k = key then some v else alookup rest key

/-- Association-list upsert; models `INSERT OR REPLACE` on a primary-keyed
table, a Python dict assignment, and the LRU cache `put`. -/
def aput {κ ν : Type} [DecidableEq κ] (t : List (κ × ν)) (k : κ) (v : ν) :
    List (κ × ν) :=
  (k, v) :: t.filter (fun p => decide (p.1 ≠ k))

/-- Python-level errors surfaced by the storage connection. -/
inductive PyErr : Type where
  | keyError
  | ioError
  | assertionError
deriving DecidableEq, Repr

/-- Equality of `Except` results is decidable componentwise. -/
instance {ε α : Type} [DecidableEq ε] [DecidableEq α] :
    DecidableEq (Except ε α) := fun a b =>
  match a, b with
  | .ok x, .ok y =>
    if h : x = y then .isTrue (congrArg Except.ok h)
    else .isFalse fun hc => h (Except.ok.inj hc)
  | .error x, .error y =>
    if h : x = y then .isTrue (congrArg Except.error h)
    else .isFalse fun hc => h (Except.error.inj hc)
  | .ok _, .error _ => .isFalse fun hc => Except.noConfusion hc
  | .error _, .ok _ => .isFalse fun hc => Except.noConfusion hc

/-! ## Files table (`Connection.io_file_*`, keyfs_sqlite.py)

The `files` table: `path TEXT PRIMARY KEY, size INTEGER NOT NULL,
data BLOB NOT NULL`.  Blob data is modelled as a list of bytes. -/

/-- `os.path.isabs` on a POSIX path: the path starts with a slash. -/
def isAbsPath (p : String) : Bool :=
  match p.data with
  | '/' :: _ => true
  | _ => false

/-- One row of the `files` table keyed by path: `(size, data)`. -/
abbrev FilesTable := List (String × Nat × List Nat)

/-- `Connection.io_file_exists`: asserts the path is relative, then
`SELECT path FROM files WHERE path = ?` and tests for a row. -/
def io_file_exists (files : FilesTable) (path : String) : Except PyErr Bool :=
  if isAbsPath path then .error .assertionError
  else .ok (alookup files path).isSome

/-- `Connection.io_file_get`: asserts the path is relative, then
`SELECT data FROM files WHERE path = ?`; raises `IOError` on no row. -/
def io_file_get (files : FilesTable) (path : String) :
    Except PyErr (List Nat) :=
  if isAbsPath path then .error .assertionError
  else
    match alookup files path with
    | none => .error .ioError
    | some (_, data) => .ok data

/-- `Connection.io_file_size`: asserts the path is relative, then
`SELECT size FROM files WHERE path = ?`; implicitly returns `None`
when there is no row. -/
def io_file_size (files : FilesTable) (path : String) :
    Except PyErr (Option Nat) :=
  if isAbsPath path then .error .assertionError
  else
    .ok (match alookup files path with
         | none => none
         | some (size, _) => some size)

/-! ## Typed-key index, changelog and the transaction `Writer`
(keyfs_sqlite.py)

The `kv` table maps `key TEXT PRIMARY KEY` to `(keyname, serial)`; the
`changelog` table maps `serial INTEGER PRIMARY KEY` to a serialized entry.

Python values handed to `record_set` are mutable objects living on a heap;
we model the heap as a list of payloads of some type `α` and a caller-held
value as an index (address) into it, so that `get_mutable_deepcopy` and
later in-place mutation by the caller are both expressible. -/

/-- A typed key: `(relpath, keyname)`. -/
structure TypedKey : Type where
  relpath : String
  name : String
deriving DecidableEq, Repr

/-- The `kv` table: `relpath → (keyname, serial)`. -/
abbrev KvTable := List (String × String × Int)

/-- `BaseConnection.db_read_typedkey`: `SELECT keyname, serial FROM kv
WHERE key = ?`, raising `KeyError` when there is no row. -/
def db_read_typedkey (kv : KvTable) (relpath : String) :
    Except PyErr (String × Int) :=
  match alookup kv relpath with
  | none => .error .keyError
  | some r => .ok r

/-- `BaseConnection.db_write_typedkey`: `INSERT OR REPLACE INTO kv`. -/
def db_write_typedkey (kv : KvTable) (relpath name : String)
    (next_serial : Int) : KvTable :=
  aput kv relpath (name, next_serial)

/-- The in-progress change set of a `Writer`:
`relpath → (keyname, back_serial, heap address of the mutable copy)`. -/
abbrev PendingChanges := List (String × String × Int × Nat)

/-- A serialized changelog entry as stored in the `changelog` table:
`relpath → (keyname, back_serial, value payload)`. -/
abbrev ChangelogEntry (α : Type) := List (String × String × Int × α)

/-- The durable store: the `kv` table and the `changelog` table. -/
structure Store (α : Type) : Type where
  kv : KvTable
  changelog : List (Int × ChangelogEntry α)

/-- `BaseConnection.db_read_last_changelog_serial`:
`SELECT MAX(_ROWID_) FROM "changelog"`, −1 when the table is empty. -/
def db_read_last_changelog_serial {α : Type}
    (changelog : List (Int × ChangelogEntry α)) : Int :=
  changelog.foldr (fun p m => max p.1 m) (-1)

/-- `readonly.get_mutable_deepcopy`: allocate a fresh object holding a deep
copy of the data at `addr`; returns the fresh address and the new heap. -/
def get_mutable_deepcopy {α : Type} [Inhabited α] (heap : List α)
    (addr : Nat) : Nat × List α :=
  (heap.length, heap ++ [heap.getD addr default])

/-- The `Writer` of keyfs_sqlite.py: the draft `kv` table of its
connection's open backend transaction, the buffered `changes`, the object
heap, and the `commit_serial` computed at `__init__`. -/
structure Writer (α : Type) : Type where
  kv : KvTable
  changes : PendingChanges
  heap : List α
  commit_serial : Int

/-- `Writer.__init__`: `commit_serial = conn.last_changelog_serial + 1`,
starting from an empty change buffer. -/
def Writer.open {α : Type} (s : Store α) (heap : List α) : Writer α :=
  { kv := s.kv, changes := [], heap := heap,
    commit_serial := db_read_last_changelog_serial s.changelog + 1 }

/-- `Writer.record_set(typedkey, value, back_serial)`: default the
back serial from the typed-key index (−1 on `KeyError`), upsert the index
entry to `(name, commit_serial)`, deep-copy the value and buffer the change
keyed by relpath. -/
def Writer.record_set {α : Type} [Inhabited α] (w : Writer α)
    (typedkey : TypedKey) (value : Nat) (back_serial : Option Int) :
    Writer α :=
  let bs : Int :=
    match back_serial with
    | some b => b
    | none =>
      match db_read_typedkey w.kv typedkey.relpath with
      | .ok (_, serial) => serial
      | .error _ => -1
  let kv := db_write_typedkey w.kv typedkey.relpath typedkey.name
    w.commit_serial
  let copied := get_mutable_deepcopy w.heap value
  { w with
      kv := kv
      heap := copied.2
      changes :=
        aput w.changes typedkey.relpath (typedkey.name, bs, copied.1) }

/-- `fileutil.dumps` applied at `__exit__` time: the buffered changes are
serialized by reading the payload currently at each buffered address. -/
def serializeChanges {α : Type} [Inhabited α] (heap : List α)
    (changes : PendingChanges) : ChangelogEntry α :=
  changes.map (fun p => (p.1, p.2.1, p.2.2.1, heap.getD p.2.2.2 default))

/-- `Writer.__exit__` with `cls is None`: write the changelog entry at
`commit_serial` and commit the backend transaction. -/
def Writer.commit {α : Type} [Inhabited α] (s : Store α) (w : Writer α) :
    Store α :=
  { kv := w.kv,
    changelog :=
      (w.commit_serial, serializeChanges w.heap w.changes) :: s.changelog }

/-- One `record_set` call inside a write transaction. -/
structure TxOp : Type where
  typedkey : TypedKey
  value : Nat
  back_serial : Option Int

/-- Run the body of a write transaction: a sequence of `record_set` calls. -/
def applyOps {α : Type} [Inhabited α] (w : Writer α) (ops : List TxOp) :
    Writer α :=
  ops.foldl (fun w op => w.record_set op.typedkey op.value op.back_serial) w

/-- One whole write transaction: open a `Writer`, run the body, then
`__exit__` — committing when `ok` (no exception) and rolling the backend
transaction back otherwise.  Returns the resulting store and the
transaction's `commit_serial`. -/
def runWrite {α : Type} [Inhabited α] (s : Store α) (heap : List α)
    (ops : List TxOp) (ok : Bool) : Store α × Int :=
  let w := applyOps (Writer.open s heap) ops
  (if ok then Writer.commit s w else s, w.commit_serial)

/-- A write transaction as submitted by a caller: the heap holding its
values, its `record_set` calls, and whether its body succeeds. -/
structure Tx (α : Type) : Type where
  heap : List α
  ops : List TxOp
  ok : Bool

/-- Run a sequence of write transactions, collecting the commit serials of
the transactions that committed (the rolled-back ones consume none). -/
def runAll {α : Type} [Inhabited α] (s : Store α) (txs : List (Tx α)) :
    Store α × List Int :=
  match txs with
  | [] => (s, [])
  | tx :: rest =>
    let step := runWrite s tx.heap tx.ops tx.ok
    let result := runAll step.1 rest
    (result.1, if tx.ok then step.2 :: result.2 else result.2)

/-! ## Read-path cache (`BaseConnection.get_relpath_at`, keyfs_sqlite.py)

The resolved triple for a relpath at a serial is `(serial, back_serial,
value)`.  The Python `_changelog_cache` is one LRU keyed either by a
serial (whole decoded changelog entries, via `get_changes`) or by a
`(serial, relpath)` pair (oversized resolved triples); the two key shapes
never collide in a Python dict, so they are two fields here.  Eviction
plays no role in the claims, so a pool is an assoc list and `put` is
`aput`. -/

/-- A resolved value triple `(serial, back_serial, value)`. -/
abbrev RelpathResult (V : Type) := Int × Int × V

/-- The two LRU pools of `BaseStorage` sitting in front of the backend. -/
structure ReadCaches (V : Type) : Type where
  relpath_cache : List ((Int × String) × RelpathResult V)
  changelog_cache_entries : List (Int × List (String × String × Int × V))
  changelog_cache_results : List ((Int × String) × RelpathResult V)

/-- Modelled from the spec: `gettotalsizeof(obj, maxlen)` (sizeof.py, not
under src/) estimates an object's size and signals by `None` that the
estimate is not below `maxlen`; the estimator itself stays abstract. -/
def gettotalsizeof {V : Type} (estimateSize : RelpathResult V → Nat)
    (result : RelpathResult V) (maxlen : Nat) : Option Nat :=
  if estimateSize result < maxlen then some (estimateSize result) else none

/-- `BaseConnection.get_relpath_at`: look in the resolved-value pool, then
in the changelog cache under the `(serial, relpath)` pair key, then in the
whole changelog entry cached for the serial (extracting the relpath's
triple when present), and only otherwise read from the backend
(`keyfs.get_relpath_at`, abstract here); place the result in the
resolved-value pool when `gettotalsizeof` with `maxlen=100000` returns an
estimate, otherwise in the changelog cache under the pair key. -/
def get_relpath_at {V : Type} (caches : ReadCaches V)
    (backend : String → Int → RelpathResult V)
    (estimateSize : RelpathResult V → Nat) (relpath : String)
    (serial : Int) : RelpathResult V × ReadCaches V :=
  let result0 := alookup caches.relpath_cache (serial, relpath)
  let result1 :=
    match result0 with
    | some r => some r
    | none => alookup caches.changelog_cache_results (serial, relpath)
  let result2 :=
    match result1 with
    | some r => some r
    | none =>
      match alookup caches.changelog_cache_entries serial with
      | some changes =>
        match alookup changes relpath with
        | some c => some (serial, c.2.1, c.2.2)
        | none => none
      | none => none
  let result :=
    match result2 with
    | some r => r
    | none => backend relpath serial
  if (gettotalsizeof estimateSize result 100000).isNone then
    (result,
      { caches with
          changelog_cache_results :=
            aput caches.changelog_cache_results (serial, relpath) result })
  else
    (result,
      { caches with
          relpath_cache :=
            aput caches.relpath_cache (serial, relpath) result })

/-- The lookup order as the spec words it: per-`(serial, relpath)`
resolved-value pool first, then the whole-changelog pool (under the pair
key, or by extracting the relpath's triple from a cached whole entry for
the serial), with `none` when every cache layer misses. -/
def cacheLayerLookup {V : Type} (caches : ReadCaches V) (relpath : String)
    (serial : Int) : Option (RelpathResult V) :=
  match alookup caches.relpath_cache (serial, relpath) with
  | some r => some r
  | none =>
    match alookup caches.changelog_cache_results (serial, relpath) with
    | some r => some r
    | none =>
      match alookup caches.changelog_cache_entries serial with
      | some changes =>
        match alookup changes relpath with
        | some c => some (serial, c.2.1, c.2.2)
        | none => none
      | none => none

/-- The placement rule as the spec words it: a result whose estimated size
is below the 100000 threshold goes to the resolved-value pool, an
oversized one to the whole-changelog pool keyed by `(serial, relpath)`. -/
def cachePlace {V : Type} (caches : ReadCaches V)
    (estimateSize : RelpathResult V → Nat) (relpath : String) (serial : Int)
    (result : RelpathResult V) : ReadCaches V :=
  if estimateSize result < 100000 then
    { caches with
        relpath_cache :=
          aput caches.relpath_cache (serial, relpath) result }
  else
    { caches with
        changelog_cache_results :=
          aput caches.changelog_cache_results (serial, relpath) result }

/-! ## Link deduplication (`IndexParser._mergelink_ifbetter`, extpypi.py)

A candidate link's `hash_spec` and `requires_python` only matter through
Python truthiness in `_mergelink_ifbetter`, so they are strings with `""`
standing for an absent/falsy attribute. -/

/-- A candidate release link as seen by `IndexParser`. -/
structure CandLink : Type where
  basename : String
  hash_spec : String
  requires_python : String
  yanked : Option Bool
deriving DecidableEq, Repr

/-- `IndexParser._mergelink_ifbetter`: store `newlink` under its basename
when there is no entry yet, or when the stored entry has no hash spec and
the new link has one — or, failing that, when the stored entry has neither
hash spec nor requires-python and the new link has requires-python. -/
def mergelink_ifbetter (basename2link : List (String × CandLink))
    (newlink : CandLink) : List (String × CandLink) :=
  match alookup basename2link newlink.basename with
  | none => aput basename2link newlink.basename newlink
  | some entry =>
    if entry.hash_spec = "" ∧ (newlink.hash_spec ≠ "" ∨
        (entry.requires_python = "" ∧ newlink.requires_python ≠ "")) then
      aput basename2link newlink.basename newlink
    else
      basename2link

/-! ## Mirror cache (`PyPIStage`, extpypi.py)

The model covers the primary node (`is_replica()` false); project names
are taken as already normalized (`normalize_name` lives in devpi_common,
an external collaborator).  Wall-clock instants are integers. -/

/-- One joined simple-link tuple as produced by `join_links_data`:
`(basename, href, requires_python, yanked)`. -/
structure SimpleLink : Type where
  basename : String
  href : String
  requires_python : Option String
  yanked : Option Bool
deriving DecidableEq, Repr

/-- Modelled from the spec: `join_links_data` (model.py, not under src/)
joins the stored `links` pair list with the parallel `requires_python`
and `yanked` lists into per-link tuples. -/
def joinLinksData : List (String × String) → List (Option String) →
    List (Option Bool) → List SimpleLink
  | [], _, _ => []
  | (b, h) :: ls, rps, ys =>
    ⟨b, h, rps.headD none, ys.headD none⟩ ::
      joinLinksData ls rps.tail ys.tail

/-- The persisted `SimpleLinksRecord` value of `key_projsimplelinks`:
`{serial, links, requires_python, yanked}` where `serial` is the upstream
serial.  A key cleared to the empty dict (`clear_simplelinks_cache`) is
modelled as an absent entry, since every reader branches on the dict's
truthiness. -/
structure SimpleLinksRec : Type where
  serial : Int
  links : List (String × String)
  requires_python : List (Option String)
  yanked : List (Option Bool)
deriving DecidableEq, Repr

/-- The state touched by `PyPIStage.get_simplelinks_perstage` on the
primary: the persisted per-project records and `PROJNAMES` set, the
in-RAM `cache_retrieve_times` (`ProjectUpdateCache`) and
`cache_projectnames` (`ProjectNamesCache` name set), which relpaths have
their release file in the local filestore, the current time, the
configured expiry, offline mode, whether the ambient transaction has been
escalated to a write transaction, the file entries registered through
`filestore.maplink`, and the background tasks spawned on timeout. -/
structure MirrorState : Type where
  projsimplelinks : List (String × SimpleLinksRec)
  key_projects : List String
  retrieve_times : List (String × Int)
  projectnames_data : List String
  file_cached : String → Bool
  now : Int
  cache_expiry : Int
  offline : Bool
  tx_write : Bool
  filestore_entries : List String
  bg_tasks : List String

/-- `ProjectUpdateCache.is_expired(project, expiry_time)`: expired when no
timestamp is recorded, or when `expiry_time` seconds have passed. -/
def retrieveTimesIsExpired (times : List (String × Int)) (project : String)
    (expiry_time now : Int) : Bool :=
  match alookup times project with
  | some t => decide (expiry_time ≤ now - t)
  | none => true

/-- `ProjectUpdateCache.refresh(project)` on `cache_retrieve_times`. -/
def refreshRetrieveTimes (st : MirrorState) (project : String) :
    MirrorState :=
  { st with retrieve_times := aput st.retrieve_times project st.now }

/-- `_entry_from_href`: cut the `#...` hash fragment off the href
(`re.sub(\x22#.*$\x22, \x22\x22, href)`). -/
def entryRelpathFromHref (href : String) : String :=
  String.mk (href.data.takeWhile (fun c => decide (c ≠ '#')))

/-- `_is_file_cached(link)`: the file entry behind `link[1]` exists and
has its file content locally. -/
def isFileCached (st : MirrorState) (link : SimpleLink) : Bool :=
  st.file_cached (entryRelpathFromHref link.href)

/-- `_load_cache_links(project)` returning `(is_expired, links_with_data,
serial)`: `(True, None, -1)` without a persisted record; otherwise expiry
from `cache_retrieve_times`, the joined links — filtered, in offline mode
when non-empty, to the links whose release file is cached — and the
record's upstream serial. -/
def loadCacheLinks (st : MirrorState) (project : String) :
    Bool × Option (List SimpleLink) × Int :=
  match alookup st.projsimplelinks project with
  | none => (true, none, -1)
  | some cache =>
    let is_expired := retrieveTimesIsExpired st.retrieve_times project
      st.cache_expiry st.now
    let links := joinLinksData cache.links cache.requires_python cache.yanked
    let links :=
      if st.offline && !links.isEmpty then links.filter (isFileCached st)
      else links
    (is_expired, some links, cache.serial)

/-- The upstream-facing errors raised by `PyPIStage`:
`UpstreamError` and its subclass `UpstreamNotFoundError`. -/
inductive UpErr : Type where
  | upstreamError
  | upstreamNotFound
deriving DecidableEq, Repr

/-- One release link parsed from the upstream page
(`parse_index(response_url, text).releaselinks`), with the local storage
key already computed (`_key_from_link` lives in filestore.py, external):
`key_relpath` is `key.relpath`, `hash_spec` is empty when absent. -/
structure FetchedLink : Type where
  basename : String
  key_relpath : String
  hash_spec : String
  requires_python : Option String
  yanked : Option Bool
deriving DecidableEq, Repr

/-- An upstream response for a project page as consumed by
`_async_fetch_releaselinks`: status code, the parsed `X-PYPI-LAST-SERIAL`
header (`none` when missing or unparsable), the `X-DEVPI-SERIAL` header,
and the parsed release links of the body. -/
structure HttpResponse : Type where
  status : Nat
  pypi_last_serial : Option Int
  devpi_serial : Option Int
  releaselinks : List FetchedLink
deriving DecidableEq, Repr

/-- The href recorded for a fetched release link: the storage key relpath
with the hash fragment appended when present. -/
def linkHref (l : FetchedLink) : String :=
  if l.hash_spec ≠ "" then l.key_relpath ++ "#" ++ l.hash_spec
  else l.key_relpath

/-- The `newlinks_future` payload built by `_async_fetch_releaselinks`. -/
structure FetchInfo : Type where
  serial : Int
  releaselinks : List FetchedLink
  key_hrefs : List (String × String)
  requires_python : List (Option String)
  yanked : List (Option Bool)
  devpi_serial : Option Int
deriving DecidableEq, Repr

/-- `_async_fetch_releaselinks`: a 404 refreshes `cache_retrieve_times`
and raises `UpstreamNotFoundError`; any other non-200 raises
`UpstreamError`; on 200 the upstream serial defaults to −1 when the
header is missing or invalid, a serial below the cached one raises
`UpstreamError` without touching any state, and otherwise the parsed link
data is resolved into the future. -/
def asyncFetchReleaselinks (st : MirrorState) (project : String)
    (cache_serial : Int) (response : HttpResponse) :
    Except UpErr FetchInfo × MirrorState :=
  if response.status ≠ 200 then
    if response.status = 404 then
      (.error .upstreamNotFound, refreshRetrieveTimes st project)
    else
      (.error .upstreamError, st)
  else
    let serial := response.pypi_last_serial.getD (-1)
    if serial < cache_serial then
      (.error .upstreamError, st)
    else
      (.ok { serial := serial
             releaselinks := response.releaselinks
             key_hrefs := response.releaselinks.map
               (fun l => (l.basename, linkHref l))
             requires_python := response.releaselinks.map
               (fun l => l.requires_python)
             yanked := response.releaselinks.map (fun l => l.yanked)
             devpi_serial := response.devpi_serial }, st)

/-- Python `set(xs) == set(ys)`: same elements on both sides. -/
def pySetEq {β : Type} [DecidableEq β] (xs ys : List β) : Bool :=
  xs.all (fun x => decide (x ∈ ys)) && ys.all (fun y => decide (y ∈ xs))

/-- `add_project_name`: add the project to the persisted `PROJNAMES` set
when not yet present. -/
def addProjectName (st : MirrorState) (project : String) : MirrorState :=
  if project ∈ st.key_projects then st
  else { st with key_projects := project :: st.key_projects }

/-- `_save_cache_links`: store the record only when it differs from the
stored one, maintaining `PROJNAMES`; the `on_commit` hook refreshes
`cache_retrieve_times` and adds the project to `cache_projectnames` (the
enclosing write transaction commits when the stage call returns, so the
hook's effect is applied here directly). -/
def saveCacheLinks (st : MirrorState) (project : String)
    (links : List (String × String))
    (requires_python : List (Option String))
    (yanked : List (Option Bool)) (serial : Int) : MirrorState :=
  let data : SimpleLinksRec := ⟨serial, links, requires_python, yanked⟩
  let st :=
    if alookup st.projsimplelinks project ≠ some data then
      addProjectName
        { st with projsimplelinks := aput st.projsimplelinks project data }
        project
    else st
  let st := refreshRetrieveTimes st project
  { st with projectnames_data :=
      if project ∈ st.projectnames_data then st.projectnames_data
      else project :: st.projectnames_data }

/-- `_update_simplelinks` on the primary: escalate the ambient read-only
transaction to a write transaction when necessary, register a file entry
for every release link (`filestore.maplink`), store the simple-links
record, and hand back the new links. -/
def updateSimplelinks (st : MirrorState) (project : String)
    (info : FetchInfo) (newlinks : List SimpleLink) :
    List SimpleLink × MirrorState :=
  let st := if !st.tx_write then { st with tx_write := true } else st
  let st :=
    { st with
        filestore_entries :=
          st.filestore_entries ++
            info.releaselinks.map (fun l => l.key_relpath) }
  let st := saveCacheLinks st project info.key_hrefs info.requires_python
    info.yanked info.serial
  (newlinks, st)

/-- The outcome of `run_coroutine_threadsafe(self.
_async_fetch_releaselinks(...), timeout=self.timeout)`: either the bound
was exceeded on the issuing side, or the coroutine ran against an
upstream response. -/
inductive FetchOutcome : Type where
  | timeout
  | response (r : HttpResponse)

/-- `get_simplelinks_perstage(project)` on the primary.  Offline mode
serves the loaded value or errors when there is none; unexpired links are
served directly; an uncached "not found" within the retrieval window is
re-raised without a request; a timeout spawns the background update task,
marks the project fresh, and serves stale links when any exist; an
upstream error serves stale links when any exist; a completed fetch whose
link set equals the cached one only refreshes the retrieval timestamp,
and otherwise the update is written through `_update_simplelinks`. -/
def getSimplelinksPerstage (st : MirrorState) (project : String)
    (outcome : FetchOutcome) :
    Except UpErr (Option (List SimpleLink)) × MirrorState :=
  let loaded := loadCacheLinks st project
  let is_expired := loaded.1
  let links := loaded.2.1
  let cache_serial := loaded.2.2
  if st.offline && links.isNone then
    (.error .upstreamError, st)
  else if st.offline || !is_expired then
    (.ok links, st)
  else
    let is_retrieval_expired := retrieveTimesIsExpired st.retrieve_times
      project st.cache_expiry st.now
    if links.isNone && !is_retrieval_expired then
      (.error .upstreamNotFound, st)
    else
      match outcome with
      | .timeout =>
        let st := { st with bg_tasks := project :: st.bg_tasks }
        let st := refreshRetrieveTimes st project
        match links with
        | some ls => (.ok (some ls), st)
        | none => (.error .upstreamError, st)
      | .response r =>
        match asyncFetchReleaselinks st project cache_serial r with
        | (.error e, st) =>
          match links with
          | some ls => (.ok (some ls), st)
          | none => (.error e, st)
        | (.ok info, st) =>
          let newlinks := joinLinksData info.key_hrefs info.requires_python
            info.yanked
          match links with
          | some ls =>
            if pySetEq ls newlinks then
              (.ok (some ls), refreshRetrieveTimes st project)
            else
              let updated := updateSimplelinks st project info newlinks
              (.ok (some updated.1), updated.2)
          | none =>
            let updated := updateSimplelinks st project info newlinks
            (.ok (some updated.1), updated.2)

/-- `is_project_cached(project)`: `key_projsimplelinks(project).exists()`. -/
def isProjectCached (st : MirrorState) (project : String) : Bool :=
  (alookup st.projsimplelinks project).isSome

/-- `has_project_perstage(project)`: a cached project counts as present;
otherwise probe `get_simplelinks_perstage`, mapping
`UpstreamNotFoundError` to `False` (other upstream errors propagate). -/
def hasProjectPerstage (st : MirrorState) (project : String)
    (outcome : FetchOutcome) : Except UpErr Bool × MirrorState :=
  if isProjectCached st project then (.ok true, st)
  else
    match getSimplelinksPerstage st project outcome with
    | (.error .upstreamNotFound, st) => (.ok false, st)
    | (.error .upstreamError, st) => (.error .upstreamError, st)
    | (.ok _, st) => (.ok true, st)

/-- The offline view of a persisted record: its joined links, filtered
(when non-empty) to the links whose release file is cached locally. -/
def offlineLinks (st : MirrorState) (cache : SimpleLinksRec) :
    List SimpleLink :=
  let links := joinLinksData cache.links cache.requires_python cache.yanked
  if !links.isEmpty then links.filter (isFileCached st) else links

/-! ## Concrete instances used by witnesses -/

/-- A persisted record with upstream serial 7 and two release links. -/
def sampleRec : SimpleLinksRec :=
  { serial := 7
    links := [("pkg-1.0.zip", "root/pypi/+f/0ab/pkg-1.0.zip#sha256=0ab"),
      ("pkg-1.1.zip", "root/pypi/+f/1cd/pkg-1.1.zip#sha256=1cd")]
    requires_python := [none, none]
    yanked := [none, none] }

/-- A mirror state holding an expired record for "pkg" and nothing in the
local filestore. -/
def sampleState : MirrorState :=
  { projsimplelinks := [("pkg", sampleRec)]
    key_projects := ["pkg"]
    retrieve_times := []
    projectnames_data := []
    file_cached := fun _ => false
    now := 1000
    cache_expiry := 30
    offline := false
    tx_write := false
    filestore_entries := []
    bg_tasks := [] }

/-- The parsed upstream response matching `sampleRec`, links in reverse
order, at upstream serial 9. -/
def sampleResponse : HttpResponse :=
  { status := 200
    pypi_last_serial := some 9
    devpi_serial := some 42
    releaselinks :=
      [{ basename := "pkg-1.1.zip"
         key_relpath := "root/pypi/+f/1cd/pkg-1.1.zip"
         hash_spec := "sha256=1cd"
         requires_python := none
         yanked := none },
        { basename := "pkg-1.0.zip"
          key_relpath := "root/pypi/+f/0ab/pkg-1.0.zip"
          hash_spec := "sha256=0ab"
          requires_python := none
          yanked := none }] }

/-- The back serial `record_set` defaults to: the serial currently stored
in the typed-key index for the relpath, −1 when the relpath has no
entry. -/
def defaultBackSerial (kv : KvTable) (relpath : String) : Int :=
  match db_read_typedkey kv relpath with
  | .ok p => p.2
  | .error _ => -1

/-- The joined links of `sampleRec`. -/
def sampleLinks : List SimpleLink :=
  joinLinksData sampleRec.links sampleRec.requires_python sampleRec.yanked

/-- `sampleState` switched to offline mode. -/
def offlineState : MirrorState := { sampleState with offline := true }

/-- `sampleState` without any cached project. -/
def emptyState : MirrorState :=
  { sampleState with projsimplelinks := [], key_projects := [] }

/-- An upstream 404 response. -/
def notFoundResponse : HttpResponse :=
  { status := 404
    pypi_last_serial := none
    devpi_serial := none
    releaselinks := [] }

/-- A candidate link with a hash spec and no requires-python. -/
def candHash : CandLink :=
  { basename := "a-1.zip", hash_spec := "sha256=aa", requires_python := ""
    yanked := none }

/-- A candidate link with requires-python but no hash spec. -/
def candRp : CandLink :=
  { basename := "a-1.zip", hash_spec := "", requires_python := ">=3.7"
    yanked := none }

/-- A candidate link with neither hash spec nor requires-python. -/
def candBare : CandLink :=
  { basename := "a-1.zip", hash_spec := "", requires_python := ""
    yanked := none }

/-- Read caches holding one resolved triple for `(3, "k")`. -/
def exCaches : ReadCaches Nat :=
  { relpath_cache := [((3, "k"), (3, 0, 5))]
    changelog_cache_entries := []
    changelog_cache_results := [] }

/-- A writer over one typed key, one heap cell and frontier 8. -/
def exWriter : Writer Nat :=
  { kv := [("pkg/links", ("PROJSIMPLELINKS", 5))]
    changes := []
    heap := [42]
    commit_serial := 9 }

/-! ## Theorems -/

theorem alookup_filter_ne {κ ν : Type} [DecidableEq κ] (t : List (κ × ν))
    (k key : κ) (h : k ≠ key) :
    alookup (t.filter (fun p => decide (p.1 ≠ k))) key = alookup t key := by
  induction t with
  | nil => rfl
  | cons p rest ih =>
    by_cases hp : p.1 = k
    · rw [List.filter_cons, if_neg (by simp [hp])]
      rw [ih, alookup]
      have hpk : ¬ p.1 = key := by rw [hp]; exact h
      rw [if_neg hpk]
    · rw [List.filter_cons, if_pos (by simp [hp])]
      rw [alookup, alookup]
      by_cases hk : p.1 = key
      · rw [if_pos hk, if_pos hk]
      · rw [if_neg hk, if_neg hk, ih]

theorem alookup_aput_self {κ ν : Type} [DecidableEq κ] (t : List (κ × ν))
    (k : κ) (v : ν) : alookup (aput t k v) k = some v := by
  rw [aput, alookup, if_pos rfl]

theorem alookup_aput_ne {κ ν : Type} [DecidableEq κ] (t : List (κ × ν))
    (k key : κ) (v : ν) (h : k ≠ key) :
    alookup (aput t k v) key = alookup t key := by
  rw [aput, alookup, if_neg h]
  exact alookup_filter_ne t k key h

/-- Claim C10: for every relative path at which no blob is stored,
`io_file_size` returns `None` rather than raising, while `io_file_get`
raises `IOError` and `io_file_exists` returns `False` for the same
missing path. -/
theorem io_file_missing_behavior (files : FilesTable) (path : String)
    (habs : isAbsPath path = false) (hmiss : alookup files path = none) :
    io_file_size files path = .ok none ∧
    io_file_get files path = .error .ioError ∧
    io_file_exists files path = .ok false := by
  refine ⟨?_, ?_, ?_⟩ <;>
    simp [io_file_size, io_file_get, io_file_exists, habs, hmiss]

/-- Witness for C10 at a concrete files table and path. -/
theorem io_file_missing_behavior_witness :
    (isAbsPath "user/index/missing.zip" = false ∧
      alookup [("user/index/other.zip", 3, [1, 2, 3])]
        "user/index/missing.zip" = none) ∧
    (io_file_size [("user/index/other.zip", 3, [1, 2, 3])]
        "user/index/missing.zip" = .ok none ∧
      io_file_get [("user/index/other.zip", 3, [1, 2, 3])]
        "user/index/missing.zip" = .error .ioError ∧
      io_file_exists [("user/index/other.zip", 3, [1, 2, 3])]
        "user/index/missing.zip" = .ok false) :=
  ⟨⟨by decide, by decide⟩,
    io_file_missing_behavior _ _ (by decide) (by decide)⟩

theorem applyOps_commit_serial {α : Type} [Inhabited α] (w : Writer α)
    (ops : List TxOp) : (applyOps w ops).commit_serial = w.commit_serial := by
  induction ops generalizing w with
  | nil => rfl
  | cons op rest ih =>
    rw [applyOps, List.foldl_cons]
    exact ih (w.record_set op.typedkey op.value op.back_serial)

theorem runWrite_serial {α : Type} [Inhabited α] (s : Store α)
    (heap : List α) (ops : List TxOp) (ok : Bool) :
    (runWrite s heap ops ok).2 =
      db_read_last_changelog_serial s.changelog + 1 := by
  rw [runWrite]
  exact applyOps_commit_serial _ ops

theorem last_serial_commit {α : Type} [Inhabited α] (s : Store α)
    (w : Writer α)
    (hcs : w.commit_serial = db_read_last_changelog_serial s.changelog + 1) :
    db_read_last_changelog_serial (Writer.commit s w).changelog =
      db_read_last_changelog_serial s.changelog + 1 := by
  rw [Writer.commit, db_read_last_changelog_serial, List.foldr_cons, hcs]
  rw [← db_read_last_changelog_serial]
  omega

theorem writer_open_commit_serial {α : Type} (s : Store α) (heap : List α) :
    (Writer.open s heap).commit_serial =
      db_read_last_changelog_serial s.changelog + 1 := rfl

theorem runWrite_rollback {α : Type} [Inhabited α] (s : Store α)
    (heap : List α) (ops : List TxOp) : (runWrite s heap ops false).1 = s := by
  simp [runWrite]

theorem runWrite_commit_changelog {α : Type} [Inhabited α] (s : Store α)
    (heap : List α) (ops : List TxOp) :
    ∃ entry, (runWrite s heap ops true).1.changelog =
      (db_read_last_changelog_serial s.changelog + 1, entry) :: s.changelog := by
  refine ⟨serializeChanges (applyOps (Writer.open s heap) ops).heap
    (applyOps (Writer.open s heap) ops).changes, ?_⟩
  simp only [runWrite, if_pos rfl, Writer.commit, if_true]
  rw [applyOps_commit_serial, writer_open_commit_serial]

theorem range_map_shift (f : Int) (k : Nat) :
    (f + 1) :: (List.range k).map (fun (i : Nat) => f + 1 + 1 + (i : Int)) =
      (List.range (k + 1)).map (fun (i : Nat) => f + 1 + (i : Int)) := by
  rw [List.range_succ_eq_map, List.map_cons, List.map_map]
  congr 1
  · simp
  · apply List.map_congr_left
    intro i _
    simp only [Function.comp_apply]
    push_cast
    ring

theorem runAll_serials {α : Type} [Inhabited α] (s : Store α)
    (txs : List (Tx α)) :
    (runAll s txs).2 = (List.range (txs.countP (fun tx => tx.ok))).map
      (fun (i : Nat) =>
        db_read_last_changelog_serial s.changelog + 1 + (i : Int)) := by
  induction txs generalizing s with
  | nil => simp [runAll]
  | cons tx rest ih =>
    rw [runAll]
    cases htx : tx.ok with
    | false =>
      have hs : (runWrite s tx.heap tx.ops false).1 = s :=
        runWrite_rollback s tx.heap tx.ops
      simp only [htx, Bool.false_eq_true, if_false, List.countP_cons, hs,
        ih s, decide_eq_true_eq, Nat.add_zero]
    | true =>
      have hstep : (runWrite s tx.heap tx.ops true).2 =
          db_read_last_changelog_serial s.changelog + 1 :=
        runWrite_serial s tx.heap tx.ops true
      have hlast : db_read_last_changelog_serial
          (runWrite s tx.heap tx.ops true).1.changelog =
          db_read_last_changelog_serial s.changelog + 1 := by
        simp only [runWrite, if_pos rfl, if_true]
        exact last_serial_commit s _
          (by rw [applyOps_commit_serial, writer_open_commit_serial])
      rw [ih ((runWrite s tx.heap tx.ops true).1), hlast]
      simp only [htx, if_pos rfl, List.countP_cons, hstep,
        decide_eq_true_eq, if_true]
      exact range_map_shift (db_read_last_changelog_serial s.changelog)
        (rest.countP (fun tx => tx.ok))

/-- Claim C1: for every write transaction, the commit serial is the current
frontier (the highest committed changelog serial, −1 when the changelog is
empty) plus one; a committed transaction writes exactly one changelog entry
at that serial, so the serials of successive committed transactions are
strictly increasing and gapless; a transaction exiting with an error rolls
the backend transaction back, writes no changelog entry, leaves the
frontier unchanged, and the next write transaction computes the same
commit serial. -/
theorem writer_commit_serial_spec {α : Type} [Inhabited α] (s : Store α) :
    (∀ heap ops ok, (runWrite s heap ops ok).2 =
        db_read_last_changelog_serial s.changelog + 1) ∧
    (∀ heap ops, ∃ entry, (runWrite s heap ops true).1.changelog =
        (db_read_last_changelog_serial s.changelog + 1, entry) ::
          s.changelog) ∧
    (∀ heap ops, (runWrite s heap ops false).1 = s) ∧
    (∀ heap ops heap2 ops2 ok2,
      (runWrite (runWrite s heap ops false).1 heap2 ops2 ok2).2 =
        db_read_last_changelog_serial s.changelog + 1) ∧
    (∀ txs : List (Tx α), (runAll s txs).2 =
        (List.range (txs.countP (fun tx => tx.ok))).map
          (fun (i : Nat) => db_read_last_changelog_serial s.changelog + 1 +
            (i : Int))) := by
  refine ⟨fun heap ops ok => runWrite_serial s heap ops ok,
    fun heap ops => runWrite_commit_changelog s heap ops,
    fun heap ops => runWrite_rollback s heap ops,
    fun heap ops heap2 ops2 ok2 => ?_,
    fun txs => runAll_serials s txs⟩
  rw [runWrite_rollback s heap ops]
  exact runWrite_serial s heap2 ops2 ok2

theorem alookup_serializeChanges {α : Type} [Inhabited α] (heap : List α)
    (changes : PendingChanges) (key : String) :
    alookup (serializeChanges heap changes) key =
      (alookup changes key).map
        (fun t => (t.1, t.2.1, heap.getD t.2.2 default)) := by
  induction changes with
  | nil => rfl
  | cons p rest ih =>
    rw [serializeChanges, List.map_cons]
    rw [alookup, alookup]
    by_cases hk : p.1 = key
    · rw [if_pos hk, if_pos hk]
      rfl
    · rw [if_neg hk, if_neg hk]
      exact ih

theorem mergelink_other_basename (m : List (String × CandLink))
    (n : CandLink) (b : String) (hb : n.basename ≠ b) :
    alookup (mergelink_ifbetter m n) b = alookup m b := by
  cases h : alookup m n.basename with
  | none =>
    simp only [mergelink_ifbetter, h]
    exact alookup_aput_ne m n.basename b n hb
  | some entry =>
    by_cases hc : entry.hash_spec = "" ∧ (n.hash_spec ≠ "" ∨
        (entry.requires_python = "" ∧ n.requires_python ≠ ""))
    · simp only [mergelink_ifbetter, h, if_pos hc]
      exact alookup_aput_ne m n.basename b n hb
    · simp only [mergelink_ifbetter, h, if_neg hc]

theorem mergelink_hash_locked (m : List (String × CandLink)) (b : String)
    (e : CandLink) (ns : List CandLink) (he : alookup m b = some e)
    (hh : e.hash_spec ≠ "") :
    alookup (ns.foldl mergelink_ifbetter m) b = some e := by
  induction ns generalizing m with
  | nil => exact he
  | cons n rest ih =>
    rw [List.foldl_cons]
    apply ih
    by_cases hb : n.basename = b
    · have h : alookup m n.basename = some e := by rw [hb]; exact he
      simp only [mergelink_ifbetter, h]
      rw [if_neg fun hc => hh hc.1]
      exact he
    · rw [mergelink_other_basename m n b hb]
      exact he

/-- Claim C9: in link deduplication, among candidate links sharing a
basename processed in order, a stored link without a hash spec is
replaced by a later link that has a hash spec (even when the stored link
has other metadata such as requires-python), or by a later link that has
requires-python when the stored link has neither hash spec nor
requires-python; once a link with a hash spec is stored for a basename,
no later link ever replaces it. -/
theorem mergelink_ifbetter_spec :
    (∀ (m : List (String × CandLink)) (e n : CandLink),
      alookup m n.basename = some e → e.hash_spec = "" →
      n.hash_spec ≠ "" →
      alookup (mergelink_ifbetter m n) n.basename = some n) ∧
    (∀ (m : List (String × CandLink)) (e n : CandLink),
      alookup m n.basename = some e → e.hash_spec = "" →
      e.requires_python = "" → n.requires_python ≠ "" →
      alookup (mergelink_ifbetter m n) n.basename = some n) ∧
    (∀ (m : List (String × CandLink)) (b : String) (e : CandLink)
      (ns : List CandLink),
      alookup m b = some e → e.hash_spec ≠ "" →
      alookup (ns.foldl mergelink_ifbetter m) b = some e) := by
  refine ⟨?_, ?_, fun m b e ns he hh => mergelink_hash_locked m b e ns he hh⟩
  · intro m e n he hno hyes
    simp only [mergelink_ifbetter, he]
    rw [if_pos ⟨hno, Or.inl hyes⟩]
    exact alookup_aput_self m n.basename n
  · intro m e n he hno hno2 hyes
    simp only [mergelink_ifbetter, he]
    rw [if_pos ⟨hno, Or.inr ⟨hno2, hyes⟩⟩]
    exact alookup_aput_self m n.basename n

/-- Witness for C9: a hash-less stored link with requires-python is
replaced by a hashed link; a bare stored link is replaced by a
requires-python link; a hashed stored link survives both. -/
theorem mergelink_ifbetter_spec_witness :
    (alookup [("a-1.zip", candRp)] candHash.basename = some candRp ∧
      alookup (mergelink_ifbetter [("a-1.zip", candRp)] candHash)
        candHash.basename = some candHash) ∧
    (alookup [("a-1.zip", candBare)] candRp.basename = some candBare ∧
      alookup (mergelink_ifbetter [("a-1.zip", candBare)] candRp)
        candRp.basename = some candRp) ∧
    (alookup [("a-1.zip", candHash)] "a-1.zip" = some candHash ∧
      alookup ([candRp, candBare].foldl mergelink_ifbetter
        [("a-1.zip", candHash)]) "a-1.zip" = some candHash) :=
  ⟨⟨by decide, mergelink_ifbetter_spec.1 _ candRp candHash (by decide)
      (by decide) (by decide)⟩,
    ⟨by decide, mergelink_ifbetter_spec.2.1 _ candBare candRp (by decide)
      (by decide) (by decide) (by decide)⟩,
    ⟨by decide, mergelink_ifbetter_spec.2.2 _ "a-1.zip" candHash
      [candRp, candBare] (by decide) (by decide)⟩⟩

theorem get_relpath_at_eq {V : Type} (caches : ReadCaches V)
    (backend : String → Int → RelpathResult V)
    (estimateSize : RelpathResult V → Nat) (relpath : String)
    (serial : Int) :
    get_relpath_at caches backend estimateSize relpath serial =
      ((cacheLayerLookup caches relpath serial).getD
          (backend relpath serial),
        cachePlace caches estimateSize relpath serial
          ((cacheLayerLookup caches relpath serial).getD
            (backend relpath serial))) := by
  cases h0 : alookup caches.relpath_cache (serial, relpath) with
  | some r =>
    simp only [get_relpath_at, cacheLayerLookup, h0, Option.getD_some]
    by_cases hs : estimateSize r < 100000 <;>
      simp [cachePlace, gettotalsizeof, hs]
  | none =>
    cases h1 : alookup caches.changelog_cache_results (serial, relpath) with
    | some r =>
      simp only [get_relpath_at, cacheLayerLookup, h0, h1, Option.getD_some]
      by_cases hs : estimateSize r < 100000 <;>
        simp [cachePlace, gettotalsizeof, hs]
    | none =>
      cases h2 : alookup caches.changelog_cache_entries serial with
      | none =>
        simp only [get_relpath_at, cacheLayerLookup, h0, h1, h2,
          Option.getD_none]
        by_cases hs : estimateSize (backend relpath serial) < 100000 <;>
          simp [cachePlace, gettotalsizeof, hs]
      | some changes =>
        cases h3 : alookup changes relpath with
        | none =>
          simp only [get_relpath_at, cacheLayerLookup, h0, h1, h2, h3,
            Option.getD_none]
          by_cases hs : estimateSize (backend relpath serial) < 100000 <;>
            simp [cachePlace, gettotalsizeof, hs]
        | some c =>
          simp only [get_relpath_at, cacheLayerLookup, h0, h1, h2, h3,
            Option.getD_some]
          by_cases hs : estimateSize (serial, c.2.1, c.2.2) < 100000 <;>
            simp [cachePlace, gettotalsizeof, hs]

/-- Claim C2: `get_relpath_at(relpath, serial)` takes its result first
from the per-`(serial, relpath)` resolved-value cache, then from the
whole-changelog cache (where a cached whole entry containing the relpath
yields the triple `(serial, back_serial, value)`), and only otherwise
from a backend read — on any cache hit the result is independent of the
backend; the result is then placed into the resolved-value cache when its
estimated size is below the 100000 threshold and otherwise into the
whole-changelog cache keyed by `(serial, relpath)`. -/
theorem get_relpath_at_spec {V : Type} (caches : ReadCaches V)
    (backend : String → Int → RelpathResult V)
    (estimateSize : RelpathResult V → Nat) (relpath : String)
    (serial : Int) :
    ((get_relpath_at caches backend estimateSize relpath serial).1 =
      (cacheLayerLookup caches relpath serial).getD
        (backend relpath serial)) ∧
    ((cacheLayerLookup caches relpath serial).isSome = true →
      ∀ backend2 : String → Int → RelpathResult V,
        (get_relpath_at caches backend2 estimateSize relpath serial).1 =
          (get_relpath_at caches backend estimateSize relpath serial).1) ∧
    ((get_relpath_at caches backend estimateSize relpath serial).2 =
      cachePlace caches estimateSize relpath serial
        (get_relpath_at caches backend estimateSize relpath serial).1) := by
  refine ⟨?_, ?_, ?_⟩
  · rw [get_relpath_at_eq]
  · intro hsome backend2
    rcases Option.isSome_iff_exists.mp hsome with ⟨r, hr⟩
    rw [get_relpath_at_eq, get_relpath_at_eq, hr]
    simp
  · rw [get_relpath_at_eq]

/-- Witness for C2 at concrete caches with a resolved-value hit: the
result does not depend on the backend function. -/
theorem get_relpath_at_spec_witness :
    ((cacheLayerLookup exCaches "k" 3).isSome = true) ∧
    (get_relpath_at exCaches (fun _ _ => (1, 1, 1)) (fun _ => 3) "k" 3).1 =
      (get_relpath_at exCaches (fun _ _ => (9, 9, 9)) (fun _ => 3)
        "k" 3).1 :=
  ⟨by decide,
    (get_relpath_at_spec exCaches (fun _ _ => (9, 9, 9)) (fun _ => 3)
      "k" 3).2.1 (by decide) (fun _ _ => (1, 1, 1))⟩

theorem record_set_bs_default {α : Type} (w : Writer α) (relpath : String) :
    (match db_read_typedkey w.kv relpath with
     | .ok (_, serial) => serial
     | .error _ => (-1 : Int)) = defaultBackSerial w.kv relpath := by
  rw [defaultBackSerial]
  cases db_read_typedkey w.kv relpath with
  | ok p => cases p with | mk a b => rfl
  | error e => rfl

theorem record_set_changes_default {α : Type} [Inhabited α] (w : Writer α)
    (tk : TypedKey) (value : Nat) :
    (w.record_set tk value none).changes =
      aput w.changes tk.relpath
        (tk.name, defaultBackSerial w.kv tk.relpath, w.heap.length) := by
  simp only [Writer.record_set, get_mutable_deepcopy]
  rw [record_set_bs_default]

theorem record_set_heap {α : Type} [Inhabited α] (w : Writer α)
    (tk : TypedKey) (value : Nat) (bso : Option Int) :
    (w.record_set tk value bso).heap =
      w.heap ++ [w.heap.getD value default] := by
  simp only [Writer.record_set, get_mutable_deepcopy]

/-- Claim C3: `record_set(typedkey, value, back_serial=None)` inside an
open write transaction defaults `back_serial` to the serial stored in the
typed-key index for the relpath (−1 when absent), immediately upserts the
index entry to `(typedkey.name, commit_serial)` so a read of the typed
key within the same transaction sees the pending write, and buffers
`(name, back_serial, deep mutable copy of value)` for the relpath, so a
later mutation of the caller-held value does not alter what is
committed. -/
theorem record_set_spec {α : Type} [Inhabited α] (w : Writer α)
    (tk : TypedKey) (value : Nat) (hv : value < w.heap.length) :
    (alookup (w.record_set tk value none).changes tk.relpath =
      some (tk.name, defaultBackSerial w.kv tk.relpath, w.heap.length)) ∧
    (∀ b : Int,
      alookup (w.record_set tk value (some b)).changes tk.relpath =
        some (tk.name, b, w.heap.length)) ∧
    (∀ bso : Option Int,
      db_read_typedkey (w.record_set tk value bso).kv tk.relpath =
        .ok (tk.name, w.commit_serial)) ∧
    ((w.record_set tk value none).heap.getD w.heap.length default =
      w.heap.getD value default) ∧
    (∀ x : α,
      alookup (serializeChanges
          ((w.record_set tk value none).heap.set value x)
          (w.record_set tk value none).changes) tk.relpath =
        some (tk.name, defaultBackSerial w.kv tk.relpath,
          w.heap.getD value default)) := by
  have hch := record_set_changes_default w tk value
  have hget : ∀ x : α,
      (((w.heap ++ [w.heap.getD value default]).set value x).getD
        w.heap.length default) = w.heap.getD value default := by
    intro x
    rw [List.getD_eq_getElem?_getD, List.getElem?_set_ne (Nat.ne_of_lt hv),
      List.getElem?_concat_length]
    rfl
  refine ⟨?_, ?_, ?_, ?_, ?_⟩
  · rw [hch]
    exact alookup_aput_self w.changes tk.relpath _
  · intro b
    simp only [Writer.record_set, get_mutable_deepcopy]
    exact alookup_aput_self w.changes tk.relpath _
  · intro bso
    simp only [Writer.record_set, get_mutable_deepcopy, db_write_typedkey,
      db_read_typedkey]
    rw [alookup_aput_self]
  · rw [record_set_heap w tk value none]
    rw [List.getD_eq_getElem?_getD, List.getElem?_concat_length]
    rfl
  · intro x
    rw [record_set_heap w tk value none, hch, alookup_serializeChanges,
      alookup_aput_self]
    show some (tk.name, defaultBackSerial w.kv tk.relpath,
        ((w.heap ++ [w.heap.getD value default]).set value x).getD
          w.heap.length default) =
      some (tk.name, defaultBackSerial w.kv tk.relpath,
        w.heap.getD value default)
    rw [hget x]

/-- Witness for C3: a concrete `record_set` call with a defaulted back
serial on a one-cell heap. -/
theorem record_set_spec_witness :
    0 < exWriter.heap.length ∧
    alookup (Writer.record_set exWriter
        ⟨"pkg/links", "PROJSIMPLELINKS"⟩ 0 none).changes "pkg/links" =
      some ("PROJSIMPLELINKS", defaultBackSerial exWriter.kv "pkg/links",
        1) ∧
    (∀ x : Nat,
      alookup (serializeChanges
          ((Writer.record_set exWriter
            ⟨"pkg/links", "PROJSIMPLELINKS"⟩ 0 none).heap.set 0 x)
          (Writer.record_set exWriter
            ⟨"pkg/links", "PROJSIMPLELINKS"⟩ 0 none).changes) "pkg/links" =
        some ("PROJSIMPLELINKS", defaultBackSerial exWriter.kv "pkg/links",
          42)) :=
  ⟨by decide,
    (record_set_spec exWriter ⟨"pkg/links", "PROJSIMPLELINKS"⟩ 0
      (by decide)).1,
    (record_set_spec exWriter ⟨"pkg/links", "PROJSIMPLELINKS"⟩ 0
      (by decide)).2.2.2.2⟩

/-- Claim C4: when a refresh of a project whose cached record holds
upstream serial `S` receives a 200 response whose extracted serial
(−1 when the `X-PYPI-LAST-SERIAL` header is missing or invalid) is
strictly below `S`, the refresh raises `UpstreamError` without modifying
state, and the surrounding `get_simplelinks_perstage` call leaves the
persisted record (and so its cached serial) unmodified. -/
theorem serial_regression_aborts (st : MirrorState) (project : String)
    (rec : SimpleLinksRec) (r : HttpResponse)
    (hoff : st.offline = false)
    (hrec : alookup st.projsimplelinks project = some rec)
    (hstat : r.status = 200)
    (hser : r.pypi_last_serial.getD (-1) < rec.serial) :
    asyncFetchReleaselinks st project rec.serial r =
      (.error .upstreamError, st) ∧
    (getSimplelinksPerstage st project (.response r)).2.projsimplelinks =
      st.projsimplelinks := by
  have hfetch : asyncFetchReleaselinks st project rec.serial r =
      (.error .upstreamError, st) := by
    simp [asyncFetchReleaselinks, hstat, hser]
  have hload : loadCacheLinks st project =
      (retrieveTimesIsExpired st.retrieve_times project st.cache_expiry
        st.now,
        some (joinLinksData rec.links rec.requires_python rec.yanked),
        rec.serial) := by
    simp [loadCacheLinks, hrec, hoff]
  refine ⟨hfetch, ?_⟩
  cases hexp : retrieveTimesIsExpired st.retrieve_times project
      st.cache_expiry st.now with
  | false => simp [getSimplelinksPerstage, hload, hexp, hoff]
  | true => simp [getSimplelinksPerstage, hload, hexp, hoff, hfetch]

/-- Witness for C4: a cached serial 7 and an upstream response claiming
serial 5 abort the refresh with `UpstreamError` and leave the state as it
was. -/
theorem serial_regression_aborts_witness :
    (sampleState.offline = false ∧
      alookup sampleState.projsimplelinks "pkg" = some sampleRec ∧
      ({ sampleResponse with pypi_last_serial := some 5 }
        : HttpResponse).status = 200 ∧
      ({ sampleResponse with pypi_last_serial := some 5 }
        : HttpResponse).pypi_last_serial.getD (-1) < sampleRec.serial) ∧
    asyncFetchReleaselinks sampleState "pkg" sampleRec.serial
      { sampleResponse with pypi_last_serial := some 5 } =
      (.error .upstreamError, sampleState) :=
  ⟨⟨rfl, by decide, rfl, by decide⟩,
    (serial_regression_aborts sampleState "pkg" sampleRec
      { sampleResponse with pypi_last_serial := some 5 }
      rfl (by decide) rfl (by decide)).1⟩

/-- Claim C5: when the cached links are expired and a persisted value
exists, a refresh failure — a timeout, or any error raised by the fetch
(non-200/404 status, upstream not-found, serial regression) — makes
`get_simplelinks_perstage` return the persisted stale links instead of
raising; a timeout additionally refreshes the project's retrieval
timestamp; and (offline mode aside) the call returns an error only when
no persisted value exists. -/
theorem stale_fallback_on_failure (st : MirrorState) (project : String)
    (hoff : st.offline = false) :
    (∀ ls cs, loadCacheLinks st project = (true, some ls, cs) →
      (getSimplelinksPerstage st project .timeout).1 = .ok (some ls) ∧
      (getSimplelinksPerstage st project .timeout).2.retrieve_times =
        aput st.retrieve_times project st.now ∧
      (∀ r e st2,
        asyncFetchReleaselinks st project cs r = (.error e, st2) →
        (getSimplelinksPerstage st project (.response r)).1 =
          .ok (some ls))) ∧
    (∀ outcome err,
      (getSimplelinksPerstage st project outcome).1 = .error err →
      (loadCacheLinks st project).2.1 = none) := by
  constructor
  · intro ls cs hload
    refine ⟨?_, ?_, ?_⟩
    · simp [getSimplelinksPerstage, hload, hoff]
    · simp [getSimplelinksPerstage, hload, hoff, refreshRetrieveTimes]
    · intro r e st2 hfetch
      simp [getSimplelinksPerstage, hload, hoff, hfetch]
  · intro outcome err h
    rcases hload : loadCacheLinks st project with ⟨ie, ol, cs⟩
    cases ol with
    | none => rfl
    | some ls =>
      exfalso
      cases ie with
      | false => simp [getSimplelinksPerstage, hload, hoff] at h
      | true =>
        cases outcome with
        | timeout => simp [getSimplelinksPerstage, hload, hoff] at h
        | response r =>
          rcases hfetch : asyncFetchReleaselinks st project cs r
            with ⟨res, st2⟩
          cases res with
          | error e2 =>
            simp [getSimplelinksPerstage, hload, hoff, hfetch] at h
          | ok info =>
            cases hseq : pySetEq ls (joinLinksData info.key_hrefs
                info.requires_python info.yanked) with
            | false =>
              simp [getSimplelinksPerstage, hload, hoff, hfetch, hseq] at h
            | true =>
              simp [getSimplelinksPerstage, hload, hoff, hfetch, hseq] at h

/-- Witness for C5: the expired `sampleState` record is served stale on a
fetch timeout, and the timeout refreshes the retrieval timestamp. -/
theorem stale_fallback_on_failure_witness :
    (sampleState.offline = false ∧
      loadCacheLinks sampleState "pkg" = (true, some sampleLinks, 7)) ∧
    (getSimplelinksPerstage sampleState "pkg" .timeout).1 =
      .ok (some sampleLinks) ∧
    (getSimplelinksPerstage sampleState "pkg" .timeout).2.retrieve_times =
      aput sampleState.retrieve_times "pkg" sampleState.now :=
  ⟨⟨rfl, by decide⟩,
    ((stale_fallback_on_failure sampleState "pkg" rfl).1 sampleLinks 7
      (by decide)).1,
    ((stale_fallback_on_failure sampleState "pkg" rfl).1 sampleLinks 7
      (by decide)).2.1⟩

/-- Claim C6: a 404 from upstream refreshes the project's retrieval
timestamp and raises `UpstreamNotFoundError`; `has_project` is then false
for the uncached project; and a second `get_simplelinks_perstage` call
within the expiry window raises `UpstreamNotFoundError` directly, with no
upstream request (its outcome argument is irrelevant and the state is
untouched). -/
theorem upstream_404_behavior (st : MirrorState) (project : String)
    (r : HttpResponse)
    (hoff : st.offline = false)
    (hmiss : alookup st.projsimplelinks project = none)
    (hstat : r.status = 404) :
    (∀ cs, asyncFetchReleaselinks st project cs r =
      (.error .upstreamNotFound, refreshRetrieveTimes st project)) ∧
    (retrieveTimesIsExpired st.retrieve_times project st.cache_expiry
        st.now = true →
      getSimplelinksPerstage st project (.response r) =
        (.error .upstreamNotFound, refreshRetrieveTimes st project) ∧
      hasProjectPerstage st project (.response r) =
        (.ok false, refreshRetrieveTimes st project)) ∧
    (∀ t2 : Int, t2 - st.now < st.cache_expiry →
      ∀ outcome : FetchOutcome,
        getSimplelinksPerstage
          { st with
              retrieve_times := aput st.retrieve_times project st.now
              now := t2 } project outcome =
          (.error .upstreamNotFound,
            { st with
                retrieve_times := aput st.retrieve_times project st.now
                now := t2 })) := by
  have hfetch : ∀ cs, asyncFetchReleaselinks st project cs r =
      (.error .upstreamNotFound, refreshRetrieveTimes st project) := by
    intro cs
    simp [asyncFetchReleaselinks, hstat]
  have hload : loadCacheLinks st project = (true, none, -1) := by
    simp [loadCacheLinks, hmiss]
  refine ⟨hfetch, fun hexp => ?_, fun t2 ht2 outcome => ?_⟩
  · have hget : getSimplelinksPerstage st project (.response r) =
        (.error .upstreamNotFound, refreshRetrieveTimes st project) := by
      simp [getSimplelinksPerstage, hload, hoff, hexp, hfetch (-1)]
    refine ⟨hget, ?_⟩
    simp [hasProjectPerstage, isProjectCached, hmiss, hget]
  · have hexp2 : retrieveTimesIsExpired
        (aput st.retrieve_times project st.now) project st.cache_expiry
        t2 = false := by
      rw [retrieveTimesIsExpired, alookup_aput_self]
      simp only [decide_eq_false_iff_not]
      omega
    cases outcome with
    | timeout =>
      simp [getSimplelinksPerstage, loadCacheLinks, hmiss, hoff, hexp2]
    | response r2 =>
      simp [getSimplelinksPerstage, loadCacheLinks, hmiss, hoff, hexp2]

/-- Witness for C6: a 404 for the uncached "zzz-missing" yields
`has_project` false, and a second call 10 seconds later (within the
30-second window) raises `UpstreamNotFoundError` for any outcome. -/
theorem upstream_404_behavior_witness :
    (emptyState.offline = false ∧
      alookup emptyState.projsimplelinks "zzz-missing" = none ∧
      notFoundResponse.status = 404 ∧
      retrieveTimesIsExpired emptyState.retrieve_times "zzz-missing"
        emptyState.cache_expiry emptyState.now = true ∧
      (1010 : Int) - emptyState.now < emptyState.cache_expiry) ∧
    hasProjectPerstage emptyState "zzz-missing"
        (.response notFoundResponse) =
      (.ok false, refreshRetrieveTimes emptyState "zzz-missing") ∧
    getSimplelinksPerstage
        { emptyState with
            retrieve_times :=
              aput emptyState.retrieve_times "zzz-missing" emptyState.now
            now := 1010 } "zzz-missing" .timeout =
      (.error .upstreamNotFound,
        { emptyState with
            retrieve_times :=
              aput emptyState.retrieve_times "zzz-missing" emptyState.now
            now := 1010 }) :=
  ⟨⟨rfl, by decide, rfl, by decide, by decide⟩,
    ((upstream_404_behavior emptyState "zzz-missing" notFoundResponse
      rfl (by decide) rfl).2.1 (by decide)).2,
    (upstream_404_behavior emptyState "zzz-missing" notFoundResponse
      rfl (by decide) rfl).2.2 1010 (by decide) .timeout⟩

/-- Claim C7: when a completed fetch yields a link set equal as a set to
the cached links (so in particular for two link lists differing only in
element order), `get_simplelinks_perstage` only refreshes the project's
retrieval timestamp and returns the cached links: no write transaction is
escalated, no record is stored, and the persisted record is unchanged. -/
theorem unchanged_links_no_write (st : MirrorState) (project : String)
    (r : HttpResponse) (ls : List SimpleLink) (cs : Int)
    (hoff : st.offline = false)
    (hload : loadCacheLinks st project = (true, some ls, cs))
    (hstat : r.status = 200)
    (hser : ¬ r.pypi_last_serial.getD (-1) < cs)
    (hset : pySetEq ls (joinLinksData
      (r.releaselinks.map (fun l => (l.basename, linkHref l)))
      (r.releaselinks.map (fun l => l.requires_python))
      (r.releaselinks.map (fun l => l.yanked))) = true) :
    getSimplelinksPerstage st project (.response r) =
      (.ok (some ls),
        { st with
            retrieve_times := aput st.retrieve_times project st.now }) ∧
    (getSimplelinksPerstage st project (.response r)).2.projsimplelinks =
      st.projsimplelinks ∧
    (getSimplelinksPerstage st project (.response r)).2.tx_write =
      st.tx_write ∧
    (∀ xs ys : List SimpleLink, xs.Perm ys → pySetEq xs ys = true) := by
  have hfetch : asyncFetchReleaselinks st project cs r =
      (.ok { serial := r.pypi_last_serial.getD (-1)
             releaselinks := r.releaselinks
             key_hrefs := r.releaselinks.map
               (fun l => (l.basename, linkHref l))
             requires_python := r.releaselinks.map
               (fun l => l.requires_python)
             yanked := r.releaselinks.map (fun l => l.yanked)
             devpi_serial := r.devpi_serial }, st) := by
    simp [asyncFetchReleaselinks, hstat, hser]
  have hmain : getSimplelinksPerstage st project (.response r) =
      (.ok (some ls),
        { st with
            retrieve_times := aput st.retrieve_times project st.now }) := by
    simp [getSimplelinksPerstage, hload, hoff, hfetch, hset,
      refreshRetrieveTimes]
  refine ⟨hmain, ?_, ?_, ?_⟩
  · rw [hmain]
  · rw [hmain]
  · intro xs ys hperm
    simp only [pySetEq, Bool.and_eq_true, List.all_eq_true,
      decide_eq_true_eq]
    exact ⟨fun x hx => hperm.mem_iff.mp hx,
      fun y hy => hperm.mem_iff.mpr hy⟩

/-- Witness for C7: `sampleResponse` lists the two cached links of
`sampleRec` in reverse order; the call serves the cached links and stores
nothing. -/
theorem unchanged_links_no_write_witness :
    (sampleState.offline = false ∧
      loadCacheLinks sampleState "pkg" = (true, some sampleLinks, 7) ∧
      sampleResponse.status = 200 ∧
      ¬ sampleResponse.pypi_last_serial.getD (-1) < (7 : Int) ∧
      pySetEq sampleLinks (joinLinksData
        (sampleResponse.releaselinks.map
          (fun l => (l.basename, linkHref l)))
        (sampleResponse.releaselinks.map (fun l => l.requires_python))
        (sampleResponse.releaselinks.map (fun l => l.yanked))) = true) ∧
    (getSimplelinksPerstage sampleState "pkg"
        (.response sampleResponse)).1 = .ok (some sampleLinks) ∧
    (getSimplelinksPerstage sampleState "pkg"
        (.response sampleResponse)).2.projsimplelinks =
      sampleState.projsimplelinks :=
  ⟨⟨rfl, by decide, rfl, by decide, by decide⟩,
    congrArg Prod.fst (unchanged_links_no_write sampleState "pkg"
      sampleResponse sampleLinks 7 rfl (by decide) rfl (by decide)
      (by decide)).1,
    (unchanged_links_no_write sampleState "pkg" sampleResponse sampleLinks
      7 rfl (by decide) rfl (by decide) (by decide)).2.1⟩

/-- Counterexample to C8 as stated: in offline mode with a persisted
record whose release files are not locally cached, the call returns the
filtered (here: empty) link list — not the persisted links verbatim. -/
theorem offline_verbatim_counterexample :
    offlineState.offline = true ∧
    (alookup offlineState.projsimplelinks "pkg").isSome = true ∧
    (getSimplelinksPerstage offlineState "pkg" .timeout).1 =
      .ok (some []) ∧
    sampleLinks ≠ [] ∧
    (getSimplelinksPerstage offlineState "pkg" .timeout).1 ≠
      .ok (some sampleLinks) := by
  decide

/-- Claim C8 (amended): in offline mode `get_simplelinks_perstage`
returns — without contacting upstream, even when expired, and leaving the
state untouched — the persisted links filtered to those whose release
file is cached locally (so verbatim exactly when all files are present),
and raises `UpstreamError` when no persisted value exists. -/
theorem offline_serves_filtered (st : MirrorState) (project : String)
    (hoff : st.offline = true) :
    ∀ outcome : FetchOutcome,
      getSimplelinksPerstage st project outcome =
        ((match alookup st.projsimplelinks project with
          | none => .error .upstreamError
          | some cache => .ok (some (offlineLinks st cache))), st) := by
  intro outcome
  cases hrec : alookup st.projsimplelinks project with
  | none => simp [getSimplelinksPerstage, loadCacheLinks, hrec, hoff]
  | some cache =>
    simp [getSimplelinksPerstage, loadCacheLinks, hrec, hoff, offlineLinks]

/-- Witness for C8 (amended) at the concrete offline state. -/
theorem offline_serves_filtered_witness :
    offlineState.offline = true ∧
    getSimplelinksPerstage offlineState "pkg" .timeout =
      ((match alookup offlineState.projsimplelinks "pkg" with
        | none => .error .upstreamError
        | some cache => .ok (some (offlineLinks offlineState cache))),
        offlineState) :=
  ⟨rfl, offline_serves_filtered offlineState "pkg" rfl .timeout⟩

end Devpi
